import Mathlib

/-!
Shallow embedding of `src/speed.py`, an Ollama benchmarking script, and
proofs of behavioural claims about it.

Modelling conventions:
* JSON objects with optional keys become structures of `Option` fields;
  a `none` field models an absent key.
* Python `dict.get(k, d)` becomes `Option.getD`; a bare `d[k]` access that can
  raise `KeyError` becomes a `match` whose `none` branch is an `Except.error`.
* Python floats are modelled by exact rationals (`ℚ`); float division by zero,
  which raises `ZeroDivisionError` in Python, is modelled by an explicit
  zero test returning `Except.error`.
* `requests` calls are inputs: the caller supplies the outcome of each HTTP
  request (timeout, connection error, or a status code with a JSON body that
  parsed or did not).
* `sys.exit` and uncaught exceptions are modelled in the outcome type of the
  whole run; the list of endpoints actually contacted is returned as a trace.
* Console prints are not modelled, except for the final results table, whose
  emitted rows `print_results_table` returns as a list of strings.
-/

namespace Ollama

/-- Body of an `/api/generate` JSON response: the fields `speed.py` reads.
A `none` field models an absent key. -/
structure GenResponse where
  eval_count : Option Int
  eval_duration : Option Int
  response : Option String
deriving DecidableEq, Repr

/-- Outcome of the `requests.post(url, ...)` + `response.json()` pair in
`measure_model_speed`: the POST itself may raise, the body may fail to parse
as JSON, or a parsed body is available. -/
inductive GenOutcome where
  | transportError
  | malformedJson
  | ok (response_data : GenResponse)
deriving DecidableEq, Repr

/-- Embedding of `OllamaConnection.measure_model_speed` (src/speed.py:83-101).
`eval_count = response_data.get("eval_count", 0)`,
`eval_duration = response_data.get("eval_duration", 1)`,
`speed = eval_count / (eval_duration / 1e9)`.
The division raises `ZeroDivisionError` when the denominator is zero, i.e.
exactly when the response carries an explicit `eval_duration` of `0` (the
`get` default `1` applies only to an absent key). Exceptions from the
transport, the JSON decoder and the division surface as `Except.error`. -/
def measure_model_speed (o : GenOutcome) : Except String (ℚ × GenResponse) :=
  match o with
  | .transportError => .error "requests exception"
  | .malformedJson => .error "json decode error"
  | .ok response_data =>
    let eval_count : ℤ := response_data.eval_count.getD 0
    let eval_duration : ℤ := response_data.eval_duration.getD 1
    let eval_duration_seconds : ℚ := (eval_duration : ℚ) / 1e9
    if eval_duration_seconds = 0 then .error "ZeroDivisionError"
    else .ok ((eval_count : ℚ) / eval_duration_seconds, response_data)

/-- Renders a rational with two decimal places, modelling Python `f"{x:.2f}"`
(float rounding is modelled as exact half-up rounding on ℚ). -/
def fixed2 (q : ℚ) : String :=
  let cents : ℤ := (q * 100 + 1 / 2).floor
  let whole : ℤ := cents / 100
  let frac : ℕ := (cents % 100).toNat
  toString whole ++ "." ++ (if frac < 10 then "0" ++ toString frac else toString frac)

/-- Embedding of `OllamaConnection.format_size` (src/speed.py:63-68). -/
def format_size (size_bytes : Int) : String :=
  let mb : ℚ := (size_bytes : ℚ) / (1024 * 1024)
  if mb ≥ 1024 then fixed2 (mb / 1024) ++ " GB" else fixed2 mb ++ " MB"

/-- The `details` mapping of one `/api/tags` model entry, as read at
src/speed.py:144-145. A `none` field models an absent key. -/
structure ModelDetails where
  family : Option String
  parameter_size : Option String
deriving DecidableEq, Repr

/-- One `/api/tags` model entry. The three keys `speed.py` reads with bare
indexing (`model["name"]`, `model['size']`, `model['details']`,
src/speed.py:139-143) are `Option`s whose `none` models an absent key, which
in Python raises `KeyError`. -/
structure ModelEntry where
  name : Option String
  size : Option Int
  details : Option ModelDetails
deriving DecidableEq, Repr

/-- Body of the `/api/version` JSON response; `speed.py` reads
`version_info.get('version', 'unknown')` (src/speed.py:34). -/
structure VersionInfo where
  version : Option String
deriving DecidableEq, Repr

/-- Body of the `/api/tags` JSON response; `data["models"]` (src/speed.py:76)
raises `KeyError` when the key is absent, modelled by `none`. -/
structure TagsBody where
  models : Option (List ModelEntry)
deriving DecidableEq, Repr

deriving instance DecidableEq for Except

/-- Outcome of one `requests.get` call: the request may time out, fail to
connect, or return a status code together with a body that either parsed as
JSON (`Except.ok`) or made `response.json()` raise (`Except.error`). -/
inductive HttpGetResult (β : Type) where
  | timeout
  | connectionError
  | response (status_code : Nat) (body : Except String β)
deriving DecidableEq, Repr

/-- Embedding of `OllamaConnection.verify_connection` (src/speed.py:15-61).
Every failure path — `requests.Timeout`, `requests.ConnectionError`, the
`ConnectionError` raised on a non-200 status, and any other exception such as
a JSON decode failure (all three `except` arms) — prints a diagnostic and
calls `sys.exit(1)`, modelled as `Except.error 1` carrying the exit status.
The `SystemExit` it raises is not an `Exception`, so no handler in `main`
catches it. On a 200 response with a parsed body the banner is printed and
control returns. -/
def verify_connection (r : HttpGetResult VersionInfo) : Except Nat Unit :=
  match r with
  | .timeout => .error 1
  | .connectionError => .error 1
  | .response status_code body =>
    if status_code = 200 then
      match body with
      | .ok _ => .ok ()
      | .error _ => .error 1
    else
      .error 1

/-- Embedding of `OllamaConnection.list_models` (src/speed.py:70-81).
On status 200 it returns `data["models"]`; a transport exception, a JSON
decode failure or a missing `"models"` key raises (propagating to `main`'s
top-level handler), and on any other status it prints an error and returns
the empty list. -/
def list_models (r : HttpGetResult TagsBody) : Except String (List ModelEntry) :=
  match r with
  | .timeout => .error "requests timeout"
  | .connectionError => .error "requests connection error"
  | .response status_code body =>
    if status_code = 200 then
      match body with
      | .error e => .error e
      | .ok data =>
        match data.models with
        | none => .error "KeyError: models"
        | some models => .ok models
    else
      .ok []

/-- One row of `OllamaConnection.results`, as built by `add_result`
(src/speed.py:103-112): all fields are the dict values stored there, with
`Speed (t/s)` already formatted to two decimals. -/
structure ResultRecord where
  model : String
  size : String
  family : String
  parameters : String
  speed : String
  tokens : Int
deriving DecidableEq, Repr

/-- Embedding of `OllamaConnection.add_result` (src/speed.py:103-112):
append one record, formatting the speed as `f"{speed:.2f}"`. -/
def add_result (results : List ResultRecord) (model_name size family parameters : String)
    (speed : ℚ) (tokens : Int) : List ResultRecord :=
  results ++ [{ model := model_name, size := size, family := family,
                parameters := parameters, speed := fixed2 speed, tokens := tokens }]

/-- Embedding of `OllamaConnection.print_results_table` (src/speed.py:114-122):
returns the lines emitted. On an empty result list it returns at once,
emitting nothing; otherwise a heading plus one tabulated row per record. -/
def print_results_table (results : List ResultRecord) : List String :=
  if results = [] then []
  else
    "Test Results Summary:" ::
      results.map (fun r =>
        r.model ++ " | " ++ r.size ++ " | " ++ r.family ++ " | " ++ r.parameters ++
          " | " ++ r.speed ++ " | " ++ toString r.tokens)

/-- The metadata extraction at the top of `main`'s per-model loop body
(src/speed.py:139-145), which runs BEFORE the inner `try`: bare `KeyError`
accesses for name, size and details, then `.get` defaults of `'unknown'`
for the two detail fields. Returns (model_name, size, family, parameters). -/
def extract_metadata (model : ModelEntry) : Except String (String × String × String × String) :=
  match model.name with
  | none => .error "KeyError: name"
  | some model_name =>
    match model.size with
    | none => .error "KeyError: size"
    | some msize =>
      match model.details with
      | none => .error "KeyError: details"
      | some details =>
        .ok (model_name, format_size msize,
             details.family.getD "unknown", details.parameter_size.getD "unknown")

/-- An HTTP endpoint of the server, used to trace which requests a run
actually issues. -/
inductive Endpoint where
  | version
  | tags
  | generate (model : String)
deriving DecidableEq, Repr

/-- Result of `main`'s per-model loop (src/speed.py:138-164): either the loop
ran to completion, or an exception escaped the loop (only the generation call
and result recording sit inside the inner `try`, so a `KeyError` from
metadata extraction aborts the loop). Both carry the `results` list as it
stands at that moment. -/
inductive LoopResult where
  | ok (results : List ResultRecord)
  | exn (msg : String) (results : List ResultRecord)
deriving DecidableEq, Repr

/-- Embedding of the per-model loop of `main` (src/speed.py:138-164),
parameterised by the server's reply `gen` to each `/api/generate` call.
Per iteration: metadata extraction (outside the inner `try`; a `KeyError`
aborts the whole loop), then the guarded benchmark: on any exception from
`measure_model_speed` the error is printed and `results` is left unchanged,
otherwise `add_result` appends one record. Also returns the trace of
`/api/generate` requests issued. -/
def run_models (gen : String → GenOutcome) :
    List ModelEntry → List ResultRecord → LoopResult × List Endpoint
  | [], results => (.ok results, [])
  | m :: rest, results =>
    match extract_metadata m with
    | .error e => (.exn e results, [])
    | .ok (model_name, size, family, parameters) =>
      let step : List ResultRecord :=
        match measure_model_speed (gen model_name) with
        | .error _ => results
        | .ok (speed, response_data) =>
          add_result results model_name size family parameters speed
            (response_data.eval_count.getD 0)
      let next := run_models gen rest step
      (next.1, .generate model_name :: next.2)

/-- The server as one run of `speed.py` observes it: the outcome of the
`/api/version` probe, of the `/api/tags` listing, and of each
`/api/generate` call, by model name. -/
structure ServerBehavior where
  version : HttpGetResult VersionInfo
  tags : HttpGetResult TagsBody
  gen : String → GenOutcome

/-- How one run of `main` ends: `exited` models `sys.exit` from
`verify_connection` (a `SystemExit` that no handler in `main` catches, so the
process terminates with that status); `errorCaught` models `main`'s top-level
`except` arms, reached without ever printing the table; `reported` models the
normal path through `print_results_table`, carrying the emitted lines. -/
inductive RunOutcome where
  | exited (code : Nat)
  | errorCaught (msg : String) (results : List ResultRecord)
  | reported (results : List ResultRecord) (table : List String)
deriving DecidableEq, Repr

/-- Embedding of `main` (src/speed.py:124-172): verify the connection (its
`sys.exit` terminates the process before anything else runs), list the
models, run the per-model loop starting from the empty `results` created in
`OllamaConnection.__init__`, and print the table — unless an exception
reaches the top-level handler first. Returns the outcome and the trace of
endpoints contacted, in order. -/
def main (b : ServerBehavior) : RunOutcome × List Endpoint :=
  match verify_connection b.version with
  | .error code => (.exited code, [.version])
  | .ok _ =>
    match list_models b.tags with
    | .error e => (.errorCaught e [], [.version, .tags])
    | .ok models =>
      match run_models b.gen models [] with
      | (.ok results, gtrace) =>
        (.reported results (print_results_table results), .version :: .tags :: gtrace)
      | (.exn e results, gtrace) =>
        (.errorCaught e results, .version :: .tags :: gtrace)

/-- The `results` list carried by a `LoopResult`, whether or not the loop
completed. -/
def loopResults : LoopResult → List ResultRecord
  | .ok results => results
  | .exn _ results => results

/-- The records the per-model loop appends: one per model whose metadata
extraction and generation call both succeed, in enumeration order, stopping
at the first metadata `KeyError` (which aborts the loop). -/
def successful_records (gen : String → GenOutcome) : List ModelEntry → List ResultRecord
  | [] => []
  | m :: rest =>
    match extract_metadata m with
    | .error _ => []
    | .ok (model_name, size, family, parameters) =>
      match measure_model_speed (gen model_name) with
      | .error _ => successful_records gen rest
      | .ok (speed, response_data) =>
        { model := model_name, size := size, family := family, parameters := parameters,
          speed := fixed2 speed, tokens := response_data.eval_count.getD 0 } ::
          successful_records gen rest

end Ollama
namespace Ollama

/-- Claim C1: the spec says that when `eval_duration` is absent OR ZERO the
code substitutes a denominator of 1 ns, so no division error is ever raised.
The substitution in fact happens only for an ABSENT key: a response carrying
an explicit `eval_duration` of `0` (here with `eval_count = 100`) makes
`measure_model_speed` raise `ZeroDivisionError`, contradicting the claim and
the code's own comment, which says the default prevents division by zero. -/
theorem zero_eval_duration_raises :
    measure_model_speed (.ok ⟨some 100, some 0, none⟩) = .error "ZeroDivisionError" := by
  norm_num [measure_model_speed]

/-- Claim C2: for every generation response with an explicit `eval_count`
and an explicit, strictly positive `eval_duration`, `measure_model_speed`
returns exactly `eval_count / (eval_duration / 1e9)` together with the
response body. -/
theorem speed_exact_formula (rd : GenResponse) (c d : ℤ)
    (hc : rd.eval_count = some c) (hd : rd.eval_duration = some d) (hpos : 0 < d) :
    measure_model_speed (.ok rd) = .ok ((c : ℚ) / ((d : ℚ) / 1e9), rd) := by
  have hne : ((d : ℚ) / 1e9) ≠ 0 := by
    apply div_ne_zero
    · exact_mod_cast hpos.ne'
    · norm_num
  simp [measure_model_speed, hc, hd, hne]

/-- Witness for `speed_exact_formula` at the spec's own scenario:
`eval_count = 100`, `eval_duration = 2000000000` ns gives exactly 50
tokens per second. -/
theorem speed_exact_formula_witness :
    measure_model_speed (.ok ⟨some 100, some 2000000000, none⟩) =
      .ok ((100 : ℚ) / ((2000000000 : ℚ) / 1e9), ⟨some 100, some 2000000000, none⟩) ∧
    (100 : ℚ) / ((2000000000 : ℚ) / 1e9) = 50 :=
  ⟨speed_exact_formula ⟨some 100, some 2000000000, none⟩ 100 2000000000 rfl rfl
      (by norm_num),
    by norm_num⟩

/-- Claim C8: the spec says an absent `eval_count` is treated as 0, yielding
a speed of 0. That fails when the same response carries an explicit
`eval_duration` of `0`: instead of a speed of 0, `measure_model_speed`
raises `ZeroDivisionError` (the same slip as in C1 — the `get` default `1`
covers only an absent `eval_duration` key, not a zero value). -/
theorem absent_eval_count_zero_duration_raises :
    measure_model_speed (.ok ⟨none, some 0, none⟩) = .error "ZeroDivisionError" := by
  norm_num [measure_model_speed]

/-- Claim C7: for every model entry whose `details` mapping is present,
a missing `family` field and a missing `parameter_size` field each default
to the sentinel string "unknown", and metadata extraction always succeeds
(never an error), whatever the two optional fields are. -/
theorem missing_details_fields_unknown (model_name : String) (msize : Int)
    (family parameter_size : Option String) :
    extract_metadata ⟨some model_name, some msize, some ⟨none, parameter_size⟩⟩ =
      .ok (model_name, format_size msize, "unknown", parameter_size.getD "unknown") ∧
    extract_metadata ⟨some model_name, some msize, some ⟨family, none⟩⟩ =
      .ok (model_name, format_size msize, family.getD "unknown", "unknown") ∧
    ∀ details : ModelDetails,
      extract_metadata ⟨some model_name, some msize, some details⟩ =
        .ok (model_name, format_size msize,
             details.family.getD "unknown", details.parameter_size.getD "unknown") :=
  ⟨rfl, rfl, fun _ => rfl⟩

/-- Claim C6: a run whose `/api/tags` listing parses to an empty model list
reports an empty result set and a no-op table: `main` reaches the report
stage with no records and no emitted rows, and `print_results_table` on an
empty collection returns without output (and, being total, cannot raise). -/
theorem empty_models_noop_report (vi : VersionInfo) (gen : String → GenOutcome) :
    main ⟨.response 200 (.ok vi), .response 200 (.ok ⟨some []⟩), gen⟩ =
      (.reported [] [], [.version, .tags]) ∧
    print_results_table [] = [] :=
  ⟨rfl, rfl⟩

/-- Claim C5: on any non-200 response to the model-listing request,
`list_models` reports the failure and returns the empty list, and the run is
not terminated: with a healthy version check, `main` proceeds to the report
stage with zero benchmarks and an empty table. -/
theorem list_models_non200_empty (status_code : Nat) (body : Except String TagsBody)
    (hne : status_code ≠ 200) :
    list_models (.response status_code body) = .ok [] ∧
    ∀ (vi : VersionInfo) (gen : String → GenOutcome),
      main ⟨.response 200 (.ok vi), .response status_code body, gen⟩ =
        (.reported [] [], [.version, .tags]) := by
  have h1 : list_models (.response status_code body) = .ok [] := by
    simp [list_models, hne]
  refine ⟨h1, fun vi gen => ?_⟩
  simp [main, verify_connection, h1, run_models, print_results_table]

/-- Witness for `list_models_non200_empty` at status 500. -/
theorem list_models_non200_empty_witness :
    list_models (.response 500 (.error "server error")) = .ok [] ∧
    ∀ (vi : VersionInfo) (gen : String → GenOutcome),
      main ⟨.response 200 (.ok vi), .response 500 (.error "server error"), gen⟩ =
        (.reported [] [], [.version, .tags]) :=
  list_models_non200_empty 500 (.error "server error") (by norm_num)

/-- Claim C4: whenever the initial version check times out, fails to
connect, or returns any non-200 status, the run terminates at once with
exit status 1 and the only request ever issued is the version probe — in
particular the model-listing request is never made, whatever the rest of
the server behaviour is. -/
theorem version_check_failure_aborts (b : ServerBehavior)
    (h : b.version = .timeout ∨ b.version = .connectionError ∨
         ∃ status_code body, b.version = .response status_code body ∧ status_code ≠ 200) :
    main b = (.exited 1, [.version]) := by
  obtain h | h | ⟨sc, body, h, hne⟩ := h
  · simp [main, verify_connection, h]
  · simp [main, verify_connection, h]
  · simp [main, verify_connection, h, hne]

/-- Witness for `version_check_failure_aborts`: a timed-out version probe. -/
theorem version_check_failure_aborts_witness :
    main ⟨.timeout, .response 200 (.ok ⟨some []⟩), fun _ => .transportError⟩ =
      (.exited 1, [.version]) :=
  version_check_failure_aborts
    ⟨.timeout, .response 200 (.ok ⟨some []⟩), fun _ => .transportError⟩ (Or.inl rfl)

end Ollama

namespace Ollama

/-- Claim C3: when the benchmark call for one model fails (transport error
or malformed JSON from `/api/generate`), the loop state is exactly that of
processing the remaining models from the SAME results list: records already
recorded are neither removed nor altered, the failed model contributes no
record, and iteration continues with the next model (the trace shows the
failed model's generate request followed by the rest of the run). -/
theorem per_model_failure_isolated (gen : String → GenOutcome) (m : ModelEntry)
    (rest : List ModelEntry) (results : List ResultRecord)
    (model_name size family parameters : String)
    (hmeta : extract_metadata m = .ok (model_name, size, family, parameters))
    (hfail : gen model_name = .transportError ∨ gen model_name = .malformedJson) :
    run_models gen (m :: rest) results =
      ((run_models gen rest results).1,
        .generate model_name :: (run_models gen rest results).2) := by
  obtain h | h := hfail <;> simp [run_models, hmeta, h, measure_model_speed]

/-- Witness for `per_model_failure_isolated`: one model whose generate call
hits a transport error. -/
theorem per_model_failure_isolated_witness :
    run_models (fun _ => GenOutcome.transportError)
        [⟨some "llama3", some 0, some ⟨none, none⟩⟩] [] =
      ((run_models (fun _ => GenOutcome.transportError) [] []).1,
        .generate "llama3" :: (run_models (fun _ => GenOutcome.transportError) [] []).2) :=
  per_model_failure_isolated (fun _ => GenOutcome.transportError)
    ⟨some "llama3", some 0, some ⟨none, none⟩⟩ [] [] "llama3" (format_size 0)
    "unknown" "unknown" rfl (Or.inl rfl)

/-- Claim C9: for every run of the per-model loop, the final results list is
the starting list with exactly the records of the successfully benchmarked
models appended after it, in enumeration order — so the collection holds one
record per successful model, insertion order equals enumeration order, and a
record, once appended, is never altered or removed (it survives unchanged as
part of the prefix of every later state). -/
theorem results_append_only (gen : String → GenOutcome) (models : List ModelEntry)
    (results : List ResultRecord) :
    loopResults (run_models gen models results).1 =
      results ++ successful_records gen models := by
  induction models generalizing results with
  | nil => simp [run_models, successful_records, loopResults]
  | cons m rest ih =>
    cases hx : extract_metadata m with
    | error e => simp [run_models, successful_records, hx, loopResults]
    | ok meta =>
      obtain ⟨model_name, size, family, parameters⟩ := meta
      cases hms : measure_model_speed (gen model_name) with
      | error e => simp [run_models, successful_records, hx, hms, ih]
      | ok pair =>
        obtain ⟨speed, response_data⟩ := pair
        simp [run_models, successful_records, hx, hms, ih, add_result]

/-- Claim C10: a model entry lacking the name, size or details key raises a
`KeyError` outside the per-model `try` (which guards only the generation
call), so the exception escapes the loop: the remaining models are never
processed (no further requests appear in the trace), and control jumps to
`main`'s top-level handler, so the run ends as `errorCaught` and the summary
table is never printed. -/
theorem malformed_entry_aborts_run (gen : String → GenOutcome) (m : ModelEntry)
    (rest : List ModelEntry)
    (h : m.name = none ∨ m.size = none ∨ m.details = none) :
    ∃ e, (∀ results, run_models gen (m :: rest) results = (.exn e results, [])) ∧
      ∀ vi, main ⟨.response 200 (.ok vi), .response 200 (.ok ⟨some (m :: rest)⟩), gen⟩ =
        (.errorCaught e [], [.version, .tags]) := by
  obtain ⟨nm, sz, dt⟩ := m
  have hx : ∃ e, extract_metadata ⟨nm, sz, dt⟩ = .error e := by
    cases nm with
    | none => exact ⟨"KeyError: name", rfl⟩
    | some a =>
      cases sz with
      | none => exact ⟨"KeyError: size", rfl⟩
      | some b =>
        cases dt with
        | none => exact ⟨"KeyError: details", rfl⟩
        | some c => simp at h
  obtain ⟨e, hx⟩ := hx
  have hrun : ∀ results,
      run_models gen (⟨nm, sz, dt⟩ :: rest) results = (.exn e results, []) := by
    intro results
    simp [run_models, hx]
  refine ⟨e, hrun, fun vi => ?_⟩
  simp [main, verify_connection, list_models, hrun []]

/-- Witness for `malformed_entry_aborts_run`: an entry with no name key. -/
theorem malformed_entry_aborts_run_witness :
    ∃ e, (∀ results, run_models (fun _ => GenOutcome.transportError)
            [(⟨none, some 0, some ⟨none, none⟩⟩ : ModelEntry)] results =
          (.exn e results, [])) ∧
      ∀ vi, main ⟨.response 200 (.ok vi),
          .response 200 (.ok ⟨some [(⟨none, some 0, some ⟨none, none⟩⟩ : ModelEntry)]⟩),
          fun _ => GenOutcome.transportError⟩ = (.errorCaught e [], [.version, .tags]) :=
  malformed_entry_aborts_run (fun _ => GenOutcome.transportError)
    ⟨none, some 0, some ⟨none, none⟩⟩ [] (Or.inl rfl)

end Ollama
